import Mathlib

/-!
# Formspree submission pipeline — a shallow embedding

This file embeds the request handlers of `formspree/forms/views.py`
(`send`, `unconfirm_multiple`, `request_unconfirm_form`) as pure Lean
functions over an explicit server state, together with models of the
collaborators those handlers call (`models.Form`, helper functions) that
are not part of the examined source and are therefore reconstructed
from the specification.

External effects (captcha verification, the Redis nonce store, the mail
transport) are represented by explicit request fields and by counters in
the outcome record: the handler's control flow itself is transcribed
line by line from the Python source.
-/

set_option maxRecDepth 8000

namespace Formspree

/-! ## String helpers -/

/-- Python `s.rstrip('/')`: remove all trailing slash characters. -/
def rstripSlash (s : String) : String :=
  String.mk ((s.toList.reverse.dropWhile (fun c => c == '/')).reverse)

/-- Helper for Python `s.startswith(pre)`: the first list starts the
second. -/
def listIsStart : List Char → List Char → Bool
  | [], _ => true
  | _ :: _, [] => false
  | a :: as, b :: bs => a == b && listIsStart as bs

/-- Python `s.startswith(pre)`, computed on character lists. -/
def startsWithS (s pre : String) : Bool :=
  listIsStart pre.toList s.toList

/-- Modelled from the spec: `helpers.remove_www` is not in src; the spec
describes it as removing a leading `www.` from a host. -/
def remove_www (s : String) : String :=
  if startsWithS s "www." then s.drop 4 else s

/-- Python `sub in s`: substring containment test. -/
def strContainsSub (s sub : String) : Bool :=
  (List.range (s.toList.length + 1)).any
    (fun i => listIsStart sub.toList (s.toList.drop i))

/-- Python `c.lower()` on one ASCII character. -/
def lowerChar (c : Char) : Char :=
  if 'A' ≤ c ∧ c ≤ 'Z' then Char.ofNat (c.toNat + 32) else c

/-- Python `s.lower()`, computed on character lists. -/
def lowerS (s : String) : String :=
  String.mk (s.toList.map lowerChar)

/-- Modelled from the spec: `utils.IS_VALID_EMAIL` is not in src; the spec
only requires a check of syntactic email validity: one `@` with a nonempty
local part and a dotted nonempty domain. -/
def IS_VALID_EMAIL (s : String) : Bool :=
  let cs := s.toList
  let lp := cs.takeWhile (fun c => !(c == '@'))
  match cs.dropWhile (fun c => !(c == '@')) with
  | [] => false
  | _ :: dom =>
    !lp.isEmpty && !dom.isEmpty && dom.any (fun c => c == '.')
      && !(dom.any (fun c => c == '@'))

/-- Modelled from the spec: `helpers.HASH` is not in src; the spec requires a
deterministic function of `(email, host)` such that two distinct pairs never
collide, used to look a form up by email and host. -/
def HASH (email host : String) : String :=
  email ++ "|#|" ++ host

/-- Modelled from the spec: `helpers.referrer_to_path` is not in src; the spec
says the host is derived from the HTTP referrer header by stripping
scheme, path and query, and that a missing referrer yields no host. -/
def referrer_to_path (r : Option String) : String :=
  match r with
  | none => ""
  | some s =>
    let noScheme :=
      if startsWithS s "https://" then s.drop 8
      else if startsWithS s "http://" then s.drop 7
      else s
    String.mk ((noScheme.toList.takeWhile (fun c => !(c == '/'))).takeWhile
      (fun c => !(c == '?')))

/-- Modelled from the spec: `helpers.KEYS_EXCLUDED_FROM_EMAIL` is not in src;
the spec lists the reserved control keys (language selector, captcha
response, host nonce, reply-to alias) stripped before building the email. -/
def KEYS_EXCLUDED_FROM_EMAIL : List String :=
  ["_language", "_host_nonce", "g-recaptcha-response", "_replyto"]

/-- Modelled from the spec: `url_domain(settings.SERVICE_URL)`, the service's
own public domain, used by the anti-spoofing check. -/
def SERVICE_DOMAIN : String := "formspree.io"

/-- Modelled from the spec: `settings.API_ROOT`, the prefix of the endpoint
URL that the captcha challenge page posts back to. -/
def API_ROOT : String := "https://formspree.io/"

/-! ## Data model -/

/-- Modelled from the spec: `models.Form` is not in src; fields follow the
data-model section of the spec (identity, email, host, sitewide, confirmation
flags, disabled kill switch, ajax stickiness, captcha and plan flags, quota
counter and allowance, and the pending payload stored with a confirmation). -/
structure Form where
  id : Nat
  hashid : String
  hash : String
  email : String
  host : Option String
  sitewide : Bool
  confirmed : Bool
  confirm_sent : Bool
  disabled : Bool
  uses_ajax : Option Bool
  captcha_disabled : Bool
  has_dashboard : Bool
  disable_email : Bool
  plan_archives : Bool
  counter : Nat
  monthly_limit : Nat
  pending_payload : Option (List (String × String))
  deriving Repr, DecidableEq

/-- The persistent store: the list of form rows plus a fresh-id counter. -/
structure ServerState where
  forms : List Form
  next_id : Nat
  deriving Repr, DecidableEq

/-- Lookup of `models.Form.get_with_hashid`: find a form by its opaque
hash-id. -/
def getWithHashid (forms : List Form) (hid : String) : Option Form :=
  forms.find? (fun f => f.hashid == hid)

/-- Lookup of `Form.query.filter_by(hash=...).first()`: find a form by its
hash. -/
def getByHash (forms : List Form) (h : String) : Option Form :=
  forms.find? (fun f => f.hash == h)

/-- Replace the row whose id matches `f.id` by `f` (the ORM commit of a
mutated row). -/
def updateForm (forms : List Form) (f : Form) : List Form :=
  forms.map (fun g => if g.id = f.id then f else g)

/-- Modelled from the spec: the `models.Form` constructor for a bare-email
target builds a fresh unconfirmed row bound to `(email, host)` whose hash is
`HASH email host`. -/
def newForm (id : Nat) (email host : String) : Form :=
  { id := id, hashid := "", hash := HASH email host, email := email,
    host := some host, sitewide := false, confirmed := false,
    confirm_sent := false, disabled := false, uses_ajax := none,
    captcha_disabled := false, has_dashboard := false, disable_email := false,
    plan_archives := false, counter := 0, monthly_limit := 1000,
    pending_payload := none }

/-- Modelled from the spec: `helpers.assign_ajax` is not in src; the spec says
the JSON-channel preference is recorded onto the form the first time it is
observed and is sticky thereafter. -/
def assign_ajax (f : Form) (wants_json : Bool) : Form :=
  if f.uses_ajax = none then { f with uses_ajax := some wants_json } else f

/-! ## Delivery engine (modelled from the spec) -/

/-- The status codes returned by the delivery engine (`Form.STATUS_*`). -/
inductive Status where
  | EMAIL_SENT
  | NO_EMAIL
  | EMAIL_EMPTY
  | CONFIRMATION_SENT
  | CONFIRMATION_DUPLICATED
  | OVERLIMIT
  | REPLYTO_ERROR (address : String)
  deriving Repr, DecidableEq

/-- The values supplied for the reply-to aliases (`_replyto` or `email`). -/
def replytoValues (data : List (String × String)) : List String :=
  (data.filter (fun kv => kv.1 == "_replyto" || kv.1 == "email")).map Prod.snd

/-- Resolution of the reply-to address per the spec's rule. -/
inductive ReplyTo where
  | ownerAddress
  | submitter (addr : String)
  | invalidAddr (addr : String)
  deriving Repr, DecidableEq

/-- Modelled from the spec: the reply-address resolution rule — a recognized
reply-to field must be a single syntactically valid address; conflicting
duplicates or an invalid value are an error; absence falls back to the
owner's address. -/
def resolveReplyTo (data : List (String × String)) : ReplyTo :=
  match (replytoValues data).eraseDups with
  | [] => .ownerAddress
  | [a] => if IS_VALID_EMAIL a then .submitter a else .invalidAddr a
  | a :: _ :: _ => .invalidAddr a

/-- The result of one delivery-engine call: the status, the updated form row,
and the countable side effects. -/
structure DeliveryResult where
  status : Status
  form : Form
  notification_emails : Nat
  confirmation_emails : Nat
  submissions_recorded : Nat
  next_url : String
  deriving Repr, DecidableEq

/-- Modelled from the spec: `models.Form.send` is not in src; the outcome
table of the spec — empty payload, then reply-to validation, then quota,
then archive-only or notification dispatch (recording a Submission when the
plan retains an archive). -/
def Form.sendSubmission (f : Form) (data : List (String × String))
    (keys : List String) : DeliveryResult :=
  if keys.isEmpty then
    ⟨.EMAIL_EMPTY, f, 0, 0, 0, "/thanks"⟩
  else
    match resolveReplyTo data with
    | .invalidAddr a => ⟨.REPLYTO_ERROR a, f, 0, 0, 0, "/thanks"⟩
    | _ =>
      if f.counter + 1 > f.monthly_limit then
        ⟨.OVERLIMIT, f, 0, 0, 0, "/thanks"⟩
      else
        let f' := { f with counter := f.counter + 1 }
        if f.disable_email && f.plan_archives then
          ⟨.NO_EMAIL, f', 0, 0, 1, "/thanks"⟩
        else
          ⟨.EMAIL_SENT, f', 1, 0, if f.plan_archives then 1 else 0, "/thanks"⟩

/-- Modelled from the spec: `models.Form.send_confirmation` is not in src; a
pending confirmation yields CONFIRMATION_DUPLICATED with no new email, else a
confirmation email is dispatched, `confirm_sent` is set and the submitted
payload is stored as pending. -/
def Form.sendConfirmation (f : Form)
    (store_data : List (String × String)) : DeliveryResult :=
  if f.confirm_sent then
    ⟨.CONFIRMATION_DUPLICATED, f, 0, 0, 0, ""⟩
  else
    ⟨.CONFIRMATION_SENT,
     { f with confirm_sent := true, pending_payload := some store_data },
     0, 1, 0, ""⟩

/-! ## The send endpoint -/

/-- What `get_temp_hostname(received_data['_host_nonce'])` does: the key may
be absent (KeyError path), resolve to a stored pair, or fail (ValueError). -/
inductive NonceFate where
  | absent
  | valid (host referrer : String)
  | invalid
  deriving Repr, DecidableEq

/-- One inbound request to the `send` view, with the external signals
(captcha verdict, nonce-store lookup, testing flag) made explicit. -/
structure SendRequest where
  target : String
  is_get : Bool
  wants_json : Bool
  body : List (String × String)
  referrer : Option String
  nonce : NonceFate
  captcha_ok : Bool
  testing : Bool
  deriving Repr, DecidableEq

/-- views.py lines 66–79: host resolution — the nonce-store pair when a valid
nonce is supplied, the referrer-derived host otherwise, `none` on a corrupted
nonce (the 500 path). -/
def resolveHost (req : SendRequest) : Option (String × Option String) :=
  match req.nonce with
  | .valid h r => some (h, some r)
  | .absent => some (referrer_to_path req.referrer, req.referrer)
  | .invalid => none

/-- The caller-facing responses produced by the `send` view, one constructor
per `return` site. -/
inductive Resp where
  | methodNotAllowed
  | invalidNonce
  | noReferrer (json : Bool)
  | invalidTarget (json : Bool)
  | formNotActive (json : Bool)
  | hostMismatch (json : Bool) (submitted confirmed : String)
  | ajaxCreateRefused
  | spoofRefused
  | captchaChallenge (data : List (String × String)) (keys : List String)
      (action : String) (nonceHost : String) (nonceReferrer : Option String)
  | emailSentResp (json : Bool) (next_url : String)
  | noEmailResp (json : Bool) (next_url : String)
  | emailEmptyResp (json : Bool)
  | confirmationSentResp (json : Bool) (resend : Bool)
  | overlimitResp (json : Bool)
  | replytoErrorResp (json : Bool) (address : String)
  deriving Repr, DecidableEq

/-- The HTTP status each response carries, read off the `return` statements of
views.py (`jsonify` with no code is 200; a redirect is 302). -/
def Resp.statusCode : Resp → Nat
  | .methodNotAllowed => 405
  | .invalidNonce => 500
  | .noReferrer _ => 400
  | .invalidTarget _ => 400
  | .formNotActive _ => 403
  | .hostMismatch .. => 403
  | .ajaxCreateRefused => 400
  | .spoofRefused => 400
  | .captchaChallenge .. => 200
  | .emailSentResp json _ => if json then 200 else 302
  | .noEmailResp json _ => if json then 200 else 302
  | .emailEmptyResp _ => 400
  | .confirmationSentResp .. => 200
  | .overlimitResp json => if json then 200 else 402
  | .replytoErrorResp json _ => if json then 500 else 400

/-- The complete outcome of one `send` request: response, resulting store,
effect counters, whether `verify_captcha` was invoked, and the binding stored
by `temp_store_hostname` when a challenge nonce was minted. -/
structure SendOutcome where
  resp : Resp
  state : ServerState
  notification_emails : Nat
  confirmation_emails : Nat
  submissions_recorded : Nat
  captcha_evaluated : Bool
  minted_nonce : Option (String × Option String)
  deriving Repr, DecidableEq

/-- views.py lines 233–287: translate a delivery-engine status into the
caller-facing response. -/
def respond (json : Bool) (r : DeliveryResult) : Resp :=
  match r.status with
  | .EMAIL_SENT => .emailSentResp json r.next_url
  | .NO_EMAIL => .noEmailResp json r.next_url
  | .EMAIL_EMPTY => .emailEmptyResp json
  | .CONFIRMATION_SENT => .confirmationSentResp json false
  | .CONFIRMATION_DUPLICATED => .confirmationSentResp json true
  | .OVERLIMIT => .overlimitResp json
  | .REPLYTO_ERROR a => .replytoErrorResp json a

/-- views.py lines 191–287: the admission stage — for a confirmed form,
evaluate the captcha requirement and either render the challenge page
(minting a nonce that stores `(form.host, request.referrer)`) or run the
delivery engine; for an unconfirmed form, send a confirmation instead. -/
def admission (req : SendRequest) (st : ServerState) (f : Form)
    (sorted_keys : List String) : SendOutcome :=
  if f.confirmed then
    let captcha_verified := req.captcha_ok
    let needs0 := !(req.wants_json || captcha_verified || req.testing)
    let needs_captcha :=
      if f.has_dashboard then needs0 && !f.captcha_disabled else needs0
    if needs_captcha then
      let fhost := f.host.getD ""
      let data_copy := req.body ++ [("_host_nonce", "nonce")]
      let action := API_ROOT ++ req.target
      ⟨.captchaChallenge data_copy sorted_keys action fhost req.referrer,
       st, 0, 0, 0, true, some (fhost, req.referrer)⟩
    else
      let r := Form.sendSubmission f req.body sorted_keys
      ⟨respond req.wants_json r,
       { st with forms := updateForm st.forms r.form },
       r.notification_emails, r.confirmation_emails, r.submissions_recorded,
       true, none⟩
  else
    let r := Form.sendConfirmation f req.body
    ⟨respond req.wants_json r,
     { st with forms := updateForm st.forms r.form },
     r.notification_emails, r.confirmation_emails, r.submissions_recorded,
     false, none⟩

/-- views.py `send` (lines 37–287): the full pipeline — method check, host
resolution, form identity resolution with the trust guard for dashboard
forms and lazy creation for email targets, then the admission stage. -/
def send (req : SendRequest) (st : ServerState) : SendOutcome :=
  if req.is_get then
    ⟨.methodNotAllowed, st, 0, 0, 0, false, none⟩
  else
    let sorted_keys :=
      (req.body.map Prod.fst).filter
        (fun k => !(KEYS_EXCLUDED_FROM_EMAIL.contains k))
    match resolveHost req with
    | none => ⟨.invalidNonce, st, 0, 0, 0, false, none⟩
    | some (host, _referrer) =>
      if host = "" then
        ⟨.noReferrer req.wants_json, st, 0, 0, 0, false, none⟩
      else if !IS_VALID_EMAIL req.target then
        match getWithHashid st.forms req.target with
        | none => ⟨.invalidTarget req.wants_json, st, 0, 0, 0, false, none⟩
        | some form0 =>
          let form1 := assign_ajax form0 req.wants_json
          let st1 := { st with forms := updateForm st.forms form1 }
          if form1.disabled then
            ⟨.formNotActive req.wants_json, st1, 0, 0, 0, false, none⟩
          else
            match form1.host with
            | none =>
              let form2 := { form1 with host := some host }
              let st2 := { st1 with forms := updateForm st1.forms form2 }
              admission req st2 form2 sorted_keys
            | some fh =>
              if (!form1.sitewide && rstripSlash fh != rstripSlash host)
                 || (form1.sitewide &&
                     !(startsWithS (remove_www host) (remove_www fh))) then
                ⟨.hostMismatch req.wants_json host fh, st1,
                 0, 0, 0, false, none⟩
              else
                admission req st1 form1 sorted_keys
      else
        let email := lowerS req.target
        match getByHash st.forms (HASH email host) with
        | some form0 =>
          let form1 := assign_ajax form0 req.wants_json
          let st1 := { st with forms := updateForm st.forms form1 }
          if form1.disabled then
            ⟨.formNotActive req.wants_json, st1, 0, 0, 0, false, none⟩
          else
            admission req st1 form1 sorted_keys
        | none =>
          if req.wants_json then
            ⟨.ajaxCreateRefused, st, 0, 0, 0, false, none⟩
          else if strContainsSub host SERVICE_DOMAIN then
            ⟨.spoofRefused, st, 0, 0, 0, false, none⟩
          else
            let form1 := assign_ajax (newForm st.next_id email host)
                           req.wants_json
            let st1 := { st with forms := st.forms ++ [form1],
                                 next_id := st.next_id + 1 }
            if form1.disabled then
              ⟨.formNotActive req.wants_json, st1, 0, 0, 0, false, none⟩
            else
              admission req st1 form1 sorted_keys

/-! ## The unconfirm endpoints -/

/-- Outcome of `unconfirm_multiple`: the 401 path, the committed 200 path, or
an unhandled exception (in which case the commit at the end of the loop was
never reached, so the store keeps its pre-request contents). -/
inductive BulkOutcome where
  | forbidden (forms : List Form)
  | ok (forms : List Form)
  | crash (forms : List Form)
  deriving Repr, DecidableEq

/-- The HTTP status of each bulk-unconfirm outcome (an unhandled exception
surfaces as a 500). -/
def BulkOutcome.statusCode : BulkOutcome → Nat
  | .forbidden _ => 401
  | .ok _ => 200
  | .crash _ => 500

/-- views.py lines 460–464: the loop body of `unconfirm_multiple` —
`Form.query.get` on each id, then the unguarded `form.email` access (which
raises on a missing row, modelled as `none`), flipping `confirmed` when the
owning email matches the marker. -/
def unconfirmLoop (marker : String) (ids : List Nat)
    (forms : List Form) : Option (List Form) :=
  match ids with
  | [] => some forms
  | i :: rest =>
    match forms.find? (fun g => g.id == i) with
    | none => none
    | some f =>
      let forms' :=
        if f.email = marker then updateForm forms { f with confirmed := false }
        else forms
      unconfirmLoop marker rest forms'

/-- views.py lines 453–469: `unconfirm_multiple` — 401 when the session
marker is absent (or falsy), else run the loop and commit. -/
def unconfirm_multiple (marker : Option String) (ids : List Nat)
    (forms : List Form) : BulkOutcome :=
  match marker with
  | none => .forbidden forms
  | some m =>
    if m = "" then .forbidden forms
    else
      match unconfirmLoop m ids forms with
      | some fs => .ok fs
      | none => .crash forms

/-- Outcome of `request_unconfirm_form`: response status, whether the body is
empty, emails sent, and whether a form lookup was performed. -/
structure UnconfirmReqOutcome where
  resp_status : Nat
  body_empty : Bool
  emails_sent : Nat
  lookup_performed : Bool
  deriving Repr, DecidableEq

/-- views.py lines 384–419: `request_unconfirm_form` — returns an empty 200
immediately for a non-browser user agent; otherwise looks the form up (the
unguarded attribute access on a missing row raises, modelled as `none`) and
sends the unsubscribe email. -/
def request_unconfirm_form (ua_is_browser : Bool) (form_id : Nat)
    (forms : List Form) : Option UnconfirmReqOutcome :=
  if !ua_is_browser then
    some ⟨200, true, 0, false⟩
  else
    match forms.find? (fun g => g.id == form_id) with
    | none => none
    | some _ => some ⟨200, false, 1, true⟩

/-! ## The Trust Rule as the spec words it

A second definition, written from the specification's sentence rather than
from the source, to be compared with the guard condition inside `send`. -/

/-- The spec's Trust Rule, transcribed from its words: a non-sitewide form
requires the stored host and the current host to be equal after stripping
trailing slashes; a sitewide form requires the current host, after removing a
leading `www.` from both sides, to begin with the stored host. -/
def specTrustPass (sitewide : Bool) (stored current : String) : Bool :=
  if sitewide then startsWithS (remove_www current) (remove_www stored)
  else rstripSlash stored == rstripSlash current

/-- The sorted keys of a request body after stripping the reserved control
keys (views.py line 62). -/
def sortedKeys (req : SendRequest) : List String :=
  (req.body.map Prod.fst).filter
    (fun k => !(KEYS_EXCLUDED_FROM_EMAIL.contains k))

/-! ## Basic lemmas about the embedded operations -/

theorem assign_ajax_disabled (f : Form) (w : Bool) :
    (assign_ajax f w).disabled = f.disabled := by
  unfold assign_ajax; split <;> rfl

theorem assign_ajax_host (f : Form) (w : Bool) :
    (assign_ajax f w).host = f.host := by
  unfold assign_ajax; split <;> rfl

theorem assign_ajax_sitewide (f : Form) (w : Bool) :
    (assign_ajax f w).sitewide = f.sitewide := by
  unfold assign_ajax; split <;> rfl

theorem assign_ajax_confirmed (f : Form) (w : Bool) :
    (assign_ajax f w).confirmed = f.confirmed := by
  unfold assign_ajax; split <;> rfl

theorem assign_ajax_confirm_sent (f : Form) (w : Bool) :
    (assign_ajax f w).confirm_sent = f.confirm_sent := by
  unfold assign_ajax; split <;> rfl

theorem assign_ajax_email (f : Form) (w : Bool) :
    (assign_ajax f w).email = f.email := by
  unfold assign_ajax; split <;> rfl

theorem assign_ajax_hash (f : Form) (w : Bool) :
    (assign_ajax f w).hash = f.hash := by
  unfold assign_ajax; split <;> rfl

theorem assign_ajax_id (f : Form) (w : Bool) :
    (assign_ajax f w).id = f.id := by
  unfold assign_ajax; split <;> rfl

theorem updateForm_map_id (forms : List Form) (f : Form) :
    (updateForm forms f).map Form.id = forms.map Form.id := by
  unfold updateForm
  rw [List.map_map]
  refine List.map_congr_left ?_
  intro g _
  simp only [Function.comp_apply]
  split
  · next h => exact h.symm
  · rfl

theorem updateForm_append (forms : List Form) (f1 f : Form)
    (hid : f1.id = f.id) (hfresh : ∀ g ∈ forms, g.id ≠ f.id) :
    updateForm (forms ++ [f1]) f = forms ++ [f] := by
  unfold updateForm
  rw [List.map_append]
  congr 1
  · refine (List.map_congr_left ?_).trans (List.map_id _)
    intro g hg
    simp [hfresh g hg]
  · simp [hid]

theorem unconfirmLoop_spec (m : String) (ids : List Nat) :
    ∀ forms : List Form,
      (∀ i ∈ ids, ∃ g ∈ forms, g.id = i) →
      (forms.map Form.id).Nodup →
      unconfirmLoop m ids forms =
        some (forms.map (fun g =>
          if ids.contains g.id && g.email == m then
            { g with confirmed := false }
          else g)) := by
  induction ids with
  | nil =>
    intro forms _ _
    simp [unconfirmLoop]
  | cons i rest ih =>
    intro forms hall hnd
    obtain ⟨g0, hg0mem, hg0id⟩ := hall i (List.mem_cons_self _ _)
    have hsome : (forms.find? (fun g => g.id == i)).isSome := by
      rw [List.find?_isSome]
      exact ⟨g0, hg0mem, by simpa using hg0id⟩
    obtain ⟨f, hf⟩ := Option.isSome_iff_exists.mp hsome
    have hfmem : f ∈ forms := List.mem_of_find?_eq_some hf
    have hfid : f.id = i := by simpa using List.find?_some hf
    have huniq : ∀ g ∈ forms, g.id = i → g = f := by
      intro g hg hgid
      exact List.inj_on_of_nodup_map hnd hg hfmem (by rw [hgid, hfid])
    have hstep :
        (if f.email = m then
           updateForm forms { f with confirmed := false }
         else forms)
          = forms.map (fun g =>
              if g.id == i && g.email == m then { g with confirmed := false }
              else g) := by
      by_cases he : f.email = m
      · rw [if_pos he]
        unfold updateForm
        refine List.map_congr_left ?_
        intro g hg
        by_cases hid : g.id = i
        · have hgf : g = f := huniq g hg hid
          subst hgf
          simp [hid, he]
        · have hne : ¬ (g.id = ({ f with confirmed := false } : Form).id) := by
            simpa [hfid] using hid
          simp [hne, hid]
      · rw [if_neg he]
        symm
        refine (List.map_congr_left ?_).trans (List.map_id _)
        intro g hg
        by_cases hid : g.id = i
        · have hgf : g = f := huniq g hg hid
          rw [hgf]
          simp [he]
        · simp [hid]
    have hids : (forms.map (fun g =>
          if g.id == i && g.email == m then { g with confirmed := false }
          else g)).map Form.id = forms.map Form.id := by
      rw [List.map_map]
      refine List.map_congr_left ?_
      intro g _
      simp only [Function.comp_apply]
      split <;> rfl
    set forms2 := forms.map (fun g =>
        if g.id == i && g.email == m then { g with confirmed := false }
        else g) with hforms2
    have hall2 : ∀ j ∈ rest, ∃ g ∈ forms2, g.id = j := by
      intro j hj
      obtain ⟨g, hg, hgid⟩ := hall j (List.mem_cons_of_mem _ hj)
      refine ⟨if g.id == i && g.email == m then { g with confirmed := false }
          else g,
        List.mem_map_of_mem _ hg, ?_⟩
      split <;> simpa using hgid
    have hnd2 : (forms2.map Form.id).Nodup := by
      rw [hforms2, hids]; exact hnd
    rw [unconfirmLoop, hf]
    simp only []
    rw [hstep, ih forms2 hall2 hnd2]
    congr 1
    rw [hforms2, List.map_map]
    refine List.map_congr_left ?_
    intro g hg
    simp only [Function.comp_apply]
    by_cases hid : g.id = i <;> by_cases he : g.email = m <;>
      by_cases hr : rest.contains g.id <;>
        simp [hid, he, hr, List.contains_cons]

theorem unconfirmLoop_missing (m : String) (ids : List Nat) :
    ∀ forms : List Form, ∀ i ∈ ids, (∀ g ∈ forms, g.id ≠ i) →
      unconfirmLoop m ids forms = none := by
  induction ids with
  | nil =>
    intro forms i hi _
    exact absurd hi (List.not_mem_nil i)
  | cons j rest ih =>
    intro forms i hi hmiss
    rcases List.mem_cons.mp hi with hij | hir
    · subst hij
      have hnone : forms.find? (fun g => g.id == i) = none := by
        rw [List.find?_eq_none]
        intro g hg
        simpa using hmiss g hg
      rw [unconfirmLoop, hnone]
    · cases hfind : forms.find? (fun g => g.id == j) with
      | none => rw [unconfirmLoop, hfind]
      | some f =>
        rw [unconfirmLoop, hfind]
        simp only []
        set forms' :=
          (if f.email = m then
            updateForm forms { f with confirmed := false }
          else forms) with hforms'
        have hidsame : forms'.map Form.id = forms.map Form.id := by
          rw [hforms']
          by_cases he : f.email = m
          · rw [if_pos he, updateForm_map_id]
          · rw [if_neg he]
        have hmiss' : ∀ g ∈ forms', g.id ≠ i := by
          intro g hg
          have hmem : g.id ∈ forms'.map Form.id := List.mem_map_of_mem _ hg
          rw [hidsame] at hmem
          obtain ⟨g0, hg0, hg0id⟩ := List.mem_map.mp hmem
          rw [← hg0id]
          exact hmiss g0 hg0
        exact ih forms' i hir hmiss'

end Formspree

namespace Formspree

theorem sendSubmission_overlimit (f : Form) (data : List (String × String))
    (keys : List String)
    (h : (Form.sendSubmission f data keys).status = .OVERLIMIT) :
    Form.sendSubmission f data keys = ⟨.OVERLIMIT, f, 0, 0, 0, "/thanks"⟩ := by
  unfold Form.sendSubmission at h ⊢
  by_cases hk : keys.isEmpty
  · simp [hk] at h
  · simp only [hk, Bool.false_eq_true, if_false] at h ⊢
    cases hrt : resolveReplyTo data with
    | invalidAddr a => simp [hrt] at h
    | ownerAddress =>
      simp only [hrt] at h ⊢
      by_cases hq : f.counter + 1 > f.monthly_limit
      · simp [hq]
      · simp only [hq, if_false] at h
        by_cases hd : f.disable_email && f.plan_archives
        · simp [hd] at h
        · simp [hd] at h
    | submitter a =>
      simp only [hrt] at h ⊢
      by_cases hq : f.counter + 1 > f.monthly_limit
      · simp [hq]
      · simp only [hq, if_false] at h
        by_cases hd : f.disable_email && f.plan_archives
        · simp [hd] at h
        · simp [hd] at h

theorem sendSubmission_replyto (f : Form) (data : List (String × String))
    (keys : List String) (a : String)
    (h : (Form.sendSubmission f data keys).status = .REPLYTO_ERROR a) :
    Form.sendSubmission f data keys
      = ⟨.REPLYTO_ERROR a, f, 0, 0, 0, "/thanks"⟩ := by
  unfold Form.sendSubmission at h ⊢
  by_cases hk : keys.isEmpty
  · simp [hk] at h
  · simp only [hk, Bool.false_eq_true, if_false] at h ⊢
    cases hrt : resolveReplyTo data with
    | invalidAddr b => simp_all
    | ownerAddress =>
      simp only [hrt] at h ⊢
      by_cases hq : f.counter + 1 > f.monthly_limit
      · simp [hq] at h
      · simp only [hq, if_false] at h
        by_cases hd : f.disable_email && f.plan_archives
        · simp [hd] at h
        · simp [hd] at h
    | submitter b =>
      simp only [hrt] at h ⊢
      by_cases hq : f.counter + 1 > f.monthly_limit
      · simp [hq] at h
      · simp only [hq, if_false] at h
        by_cases hd : f.disable_email && f.plan_archives
        · simp [hd] at h
        · simp [hd] at h

end Formspree

namespace Formspree

/-! ## Concrete fixtures for closed checks -/

/-- A confirmed form owned by `alice@example.com`. -/
def bulkFormA : Form :=
  { id := 1, hashid := "", hash := "", email := "alice@example.com",
    host := some "a.com", sitewide := false, confirmed := true,
    confirm_sent := false, disabled := false, uses_ajax := none,
    captcha_disabled := false, has_dashboard := false, disable_email := false,
    plan_archives := false, counter := 0, monthly_limit := 1000,
    pending_payload := none }

/-- A confirmed form owned by `bob@example.com`. -/
def bulkFormB : Form := { bulkFormA with id := 2, email := "bob@example.com" }

/-- C6: for every bulk-unconfirm request, an absent session marker yields 401
with no form modified; with the marker present, `confirmed` is set to false
exactly for the supplied form ids whose owning email equals the marker email,
and every form owned by a different email is mapped to itself, all fields
unchanged. -/
theorem unconfirm_multiple_scoped (ids : List Nat) (forms : List Form)
    (m : String) (hm : m ≠ "")
    (hall : ∀ i ∈ ids, ∃ g ∈ forms, g.id = i)
    (hnd : (forms.map Form.id).Nodup) :
    unconfirm_multiple none ids forms = .forbidden forms ∧
    (BulkOutcome.forbidden forms).statusCode = 401 ∧
    unconfirm_multiple (some m) ids forms =
      .ok (forms.map (fun g =>
        if ids.contains g.id && g.email == m then { g with confirmed := false }
        else g)) ∧
    (∀ g : Form, g.email ≠ m →
      (if ids.contains g.id && g.email == m then { g with confirmed := false }
       else g) = g) := by
  refine ⟨rfl, rfl, ?_, ?_⟩
  · show (if m = "" then BulkOutcome.forbidden forms
      else match unconfirmLoop m ids forms with
        | some fs => .ok fs
        | none => .crash forms) = _
    rw [if_neg hm, unconfirmLoop_spec m ids forms hall hnd]
  · intro g hg
    have hb : (g.email == m) = false := by
      simpa using hg
    simp [hb]

/-- C9: in the bulk-unconfirm operation with the session marker present, a
supplied form id with no corresponding row makes the loop raise before the
single commit, so the persisted store keeps its pre-request contents — no
supplied form, valid ids included, has its `confirmed` change persisted. -/
theorem unconfirm_multiple_crash (m : String) (ids : List Nat)
    (forms : List Form) (hm : m ≠ "")
    (i : Nat) (hi : i ∈ ids) (hmiss : ∀ g ∈ forms, g.id ≠ i) :
    unconfirm_multiple (some m) ids forms = .crash forms ∧
    (BulkOutcome.crash forms).statusCode = 500 := by
  refine ⟨?_, rfl⟩
  show (if m = "" then BulkOutcome.forbidden forms
      else match unconfirmLoop m ids forms with
        | some fs => .ok fs
        | none => .crash forms) = _
  rw [if_neg hm, unconfirmLoop_missing m ids forms i hi hmiss]

/-- C10: the request-unconfirm endpoint returns an empty-body 200 for every
non-browser user agent, sending no email and performing no form lookup,
whatever the supplied form id and store contents. -/
theorem request_unconfirm_form_bot (form_id : Nat) (forms : List Form) :
    request_unconfirm_form false form_id forms
      = some { resp_status := 200, body_empty := true, emails_sent := 0,
               lookup_performed := false } := rfl

/-- Closed check for C6: applying the scoped bulk-unconfirm theorem at a
concrete store holding one of Alice's and one of Bob's forms, with both ids
supplied and Alice's marker, flips only Alice's form. -/
theorem unconfirm_multiple_scoped_witness :
    ("alice@example.com" : String) ≠ "" ∧
    unconfirm_multiple (some "alice@example.com") [1, 2] [bulkFormA, bulkFormB]
      = .ok [{ bulkFormA with confirmed := false }, bulkFormB] := by
  have h := unconfirm_multiple_scoped [1, 2] [bulkFormA, bulkFormB]
    "alice@example.com" (by decide)
    (by
      intro i hi
      fin_cases hi
      · exact ⟨bulkFormA, by decide, rfl⟩
      · exact ⟨bulkFormB, by decide, rfl⟩)
    (by decide)
  refine ⟨by decide, ?_⟩
  rw [h.2.2.1]
  rfl

/-- Closed check for C9: with Alice's marker set and a dangling id 3 in the
supplied list, the bulk unconfirm crashes and Alice's form stays confirmed. -/
theorem unconfirm_multiple_crash_witness :
    unconfirm_multiple (some "alice@example.com") [1, 3] [bulkFormA]
      = .crash [bulkFormA] := by
  have h := unconfirm_multiple_crash "alice@example.com" [1, 3] [bulkFormA]
    (by decide) 3 (by decide)
    (by intro g hg; fin_cases hg; decide)
  exact h.1

end Formspree

namespace Formspree

/-- The form row as `send_confirmation` stores it: confirmation marked sent
and the submitted payload stashed as pending. -/
def pendingForm (f : Form) (data : List (String × String)) : Form :=
  { f with confirm_sent := true, pending_payload := some data }

/-- Reduction of the admission stage for an unconfirmed form with no pending
confirmation. -/
theorem admission_eq_confirmation_sent (req : SendRequest) (st : ServerState)
    (f : Form) (keys : List String)
    (hc : f.confirmed = false) (hcs : f.confirm_sent = false) :
    admission req st f keys =
      ⟨.confirmationSentResp req.wants_json false,
       { st with forms := updateForm st.forms (pendingForm f req.body) },
       0, 1, 0, false, none⟩ := by
  unfold admission
  rw [hc]
  simp only [Bool.false_eq_true, if_false]
  unfold Form.sendConfirmation
  rw [hcs]
  simp [respond, pendingForm]

/-- Reduction of the admission stage for an unconfirmed form with a pending
confirmation. -/
theorem admission_eq_confirmation_dup (req : SendRequest) (st : ServerState)
    (f : Form) (keys : List String)
    (hc : f.confirmed = false) (hcs : f.confirm_sent = true) :
    admission req st f keys =
      ⟨.confirmationSentResp req.wants_json true,
       { st with forms := updateForm st.forms f },
       0, 0, 0, false, none⟩ := by
  unfold admission
  rw [hc]
  simp only [Bool.false_eq_true, if_false]
  unfold Form.sendConfirmation
  rw [hcs]
  simp [respond]

/-- C2: any submission reaching the admission stage with an unconfirmed form
evaluates no captcha and attempts a confirmation email, never a delivery: with
no confirmation pending the outcome is CONFIRMATION_SENT, one confirmation
email, and the submitted payload stored as pending on the form; a second
identical submission against the updated form yields CONFIRMATION_DUPLICATED
with no new email. -/
theorem admission_unconfirmed (req : SendRequest) (st : ServerState)
    (f : Form) (keys : List String)
    (hc : f.confirmed = false) (hcs : f.confirm_sent = false) :
    (admission req st f keys).captcha_evaluated = false ∧
    (admission req st f keys).notification_emails = 0 ∧
    (admission req st f keys).confirmation_emails = 1 ∧
    (admission req st f keys).resp
      = .confirmationSentResp req.wants_json false ∧
    (admission req st f keys).state.forms
      = updateForm st.forms (pendingForm f req.body) ∧
    (pendingForm f req.body).pending_payload = some req.body ∧
    (∀ st' : ServerState,
      (admission req st' (pendingForm f req.body) keys).resp
          = .confirmationSentResp req.wants_json true ∧
      (admission req st' (pendingForm f req.body) keys).confirmation_emails
          = 0 ∧
      (admission req st' (pendingForm f req.body) keys).notification_emails
          = 0 ∧
      (admission req st' (pendingForm f req.body) keys).captcha_evaluated
          = false) := by
  have h1 := admission_eq_confirmation_sent req st f keys hc hcs
  refine ⟨by rw [h1], by rw [h1], by rw [h1], by rw [h1], by rw [h1], rfl, ?_⟩
  intro st'
  have h2 := admission_eq_confirmation_dup req st' (pendingForm f req.body)
    keys (by simpa [pendingForm] using hc) rfl
  exact ⟨by rw [h2], by rw [h2], by rw [h2], by rw [h2]⟩

end Formspree

namespace Formspree

/-- C4: amended — for a confirmed form, a captcha is required exactly when the
caller is not on the JSON channel, no valid captcha token was supplied, the
system is not in test mode, and the form does not have both the dashboard
capability and captcha disabled; when required, the admission stage returns a
200 challenge carrying the submitted values plus the nonce, whose action
posts back to the same endpoint, and the minted nonce binds the form's stored
host together with the raw request referrer. -/
theorem admission_captcha (req : SendRequest) (st : ServerState)
    (f : Form) (keys : List String)
    (hc : f.confirmed = true) :
    (((!(req.wants_json || req.captcha_ok || req.testing))
        && !(f.has_dashboard && f.captcha_disabled)) = true →
      admission req st f keys =
        ⟨.captchaChallenge (req.body ++ [("_host_nonce", "nonce")]) keys
            (API_ROOT ++ req.target) (f.host.getD "") req.referrer,
         st, 0, 0, 0, true, some (f.host.getD "", req.referrer)⟩) ∧
    (((!(req.wants_json || req.captcha_ok || req.testing))
        && !(f.has_dashboard && f.captcha_disabled)) = false →
      (admission req st f keys).minted_nonce = none) ∧
    (∀ d k a nh nr, (Resp.captchaChallenge d k a nh nr).statusCode = 200) := by
  have hform : (if f.has_dashboard then
        (!(req.wants_json || req.captcha_ok || req.testing))
          && !f.captcha_disabled
      else (!(req.wants_json || req.captcha_ok || req.testing)))
        = ((!(req.wants_json || req.captcha_ok || req.testing))
            && !(f.has_dashboard && f.captcha_disabled)) := by
    by_cases hd : f.has_dashboard <;> simp [hd]
  refine ⟨?_, ?_, fun d k a nh nr => rfl⟩
  · intro hn
    unfold admission
    rw [hc]
    simp only [if_true]
    rw [hform, hn]
    simp
  · intro hn
    unfold admission
    rw [hc]
    simp only [if_true]
    rw [hform, hn]
    simp

end Formspree

namespace Formspree

/-- C7: amended — whenever the delivery engine reports OVERLIMIT during the
admission of a confirmed submission, no email is sent and no Submission is
recorded; the caller-facing response is the over-quota one, which carries the
402 status for document callers but a plain 200 for JSON callers. -/
theorem admission_overlimit (req : SendRequest) (st : ServerState)
    (f : Form) (keys : List String)
    (hc : f.confirmed = true)
    (hnc : ((!(req.wants_json || req.captcha_ok || req.testing))
        && !(f.has_dashboard && f.captcha_disabled)) = false)
    (hst : (Form.sendSubmission f req.body keys).status = .OVERLIMIT) :
    (admission req st f keys).notification_emails = 0 ∧
    (admission req st f keys).confirmation_emails = 0 ∧
    (admission req st f keys).submissions_recorded = 0 ∧
    (admission req st f keys).resp = .overlimitResp req.wants_json ∧
    (Resp.overlimitResp false).statusCode = 402 ∧
    (Resp.overlimitResp true).statusCode = 200 := by
  have hform : (if f.has_dashboard then
        (!(req.wants_json || req.captcha_ok || req.testing))
          && !f.captcha_disabled
      else (!(req.wants_json || req.captcha_ok || req.testing)))
        = ((!(req.wants_json || req.captcha_ok || req.testing))
            && !(f.has_dashboard && f.captcha_disabled)) := by
    by_cases hd : f.has_dashboard <;> simp [hd]
  have h1 : admission req st f keys =
      ⟨.overlimitResp req.wants_json,
       { st with forms := updateForm st.forms f },
       0, 0, 0, true, none⟩ := by
    unfold admission
    rw [hc]
    simp only [if_true]
    rw [hform, hnc]
    simp only [Bool.false_eq_true, if_false]
    rw [sendSubmission_overlimit f req.body keys hst]
    simp [respond]
  exact ⟨by rw [h1], by rw [h1], by rw [h1], by rw [h1], rfl, rfl⟩

/-- C8: amended — whenever the delivery engine reports REPLYTO_ERROR during
the admission of a confirmed submission, no email is dispatched and no
Submission is recorded; the caller-facing response carries the offending
address with a 400 client error for document callers but a 500 for JSON
callers. -/
theorem admission_replyto_error (req : SendRequest) (st : ServerState)
    (f : Form) (keys : List String) (a : String)
    (hc : f.confirmed = true)
    (hnc : ((!(req.wants_json || req.captcha_ok || req.testing))
        && !(f.has_dashboard && f.captcha_disabled)) = false)
    (hst : (Form.sendSubmission f req.body keys).status = .REPLYTO_ERROR a) :
    (admission req st f keys).notification_emails = 0 ∧
    (admission req st f keys).confirmation_emails = 0 ∧
    (admission req st f keys).submissions_recorded = 0 ∧
    (admission req st f keys).resp = .replytoErrorResp req.wants_json a ∧
    (Resp.replytoErrorResp false a).statusCode = 400 ∧
    (Resp.replytoErrorResp true a).statusCode = 500 := by
  have hform : (if f.has_dashboard then
        (!(req.wants_json || req.captcha_ok || req.testing))
          && !f.captcha_disabled
      else (!(req.wants_json || req.captcha_ok || req.testing)))
        = ((!(req.wants_json || req.captcha_ok || req.testing))
            && !(f.has_dashboard && f.captcha_disabled)) := by
    by_cases hd : f.has_dashboard <;> simp [hd]
  have h1 : admission req st f keys =
      ⟨.replytoErrorResp req.wants_json a,
       { st with forms := updateForm st.forms f },
       0, 0, 0, true, none⟩ := by
    unfold admission
    rw [hc]
    simp only [if_true]
    rw [hform, hnc]
    simp only [Bool.false_eq_true, if_false]
    rw [sendSubmission_replyto f req.body keys a hst]
    simp [respond]
  exact ⟨by rw [h1], by rw [h1], by rw [h1], by rw [h1], rfl, rfl⟩

end Formspree

namespace Formspree

/-- C3: every submission whose resolved form — looked up by opaque hash-id or
by email+host hash — has `disabled` set is answered with the 403 form-not-
active response before any email is composed, any confirmation attempted or
any Submission recorded, whatever the confirmation state, captcha token or
payload. -/
theorem send_disabled_rejected (req : SendRequest) (st : ServerState)
    (host : String) (r : Option String) (f0 : Form)
    (hget : req.is_get = false)
    (hres : resolveHost req = some (host, r))
    (hne : host ≠ "")
    (hcase : (IS_VALID_EMAIL req.target = false ∧
                getWithHashid st.forms req.target = some f0)
           ∨ (IS_VALID_EMAIL req.target = true ∧
                getByHash st.forms (HASH (lowerS req.target) host) = some f0))
    (hdis : f0.disabled = true) :
    (send req st).resp = .formNotActive req.wants_json ∧
    (send req st).resp.statusCode = 403 ∧
    (send req st).notification_emails = 0 ∧
    (send req st).confirmation_emails = 0 ∧
    (send req st).submissions_recorded = 0 := by
  rcases hcase with ⟨hv, hfind⟩ | ⟨hv, hfind⟩
  · have h1 : send req st = ⟨.formNotActive req.wants_json,
        { st with
            forms := updateForm st.forms (assign_ajax f0 req.wants_json) },
        0, 0, 0, false, none⟩ := by
      simp [send, hget, hres, hne, hv, hfind, assign_ajax_disabled, hdis]
    refine ⟨by rw [h1], by rw [h1]; rfl, by rw [h1], by rw [h1], by rw [h1]⟩
  · have h1 : send req st = ⟨.formNotActive req.wants_json,
        { st with
            forms := updateForm st.forms (assign_ajax f0 req.wants_json) },
        0, 0, 0, false, none⟩ := by
      simp [send, hget, hres, hne, hv, hfind, assign_ajax_disabled, hdis]
    refine ⟨by rw [h1], by rw [h1]; rfl, by rw [h1], by rw [h1], by rw [h1]⟩

/-- C1: amended — for a dashboard-identified form with a stored host, a
submission passes the Trust Guard exactly when (non-sitewide) the stored and
resolved hosts agree after stripping trailing slashes, or (sitewide) the
resolved host, after removing a leading www. from both sides, begins with the
stored host as a string; any violation is a 403 response disclosing both the
submitted and the confirmed host. For a sitewide form confirmed for
example.com, www.example.com is accepted while blog.example.com (a
subdomain, not a string extension) and evilexample.com are both rejected. -/
theorem send_trust_rule (req : SendRequest) (st : ServerState)
    (host : String) (r : Option String) (f0 : Form) (fh : String)
    (hget : req.is_get = false)
    (hres : resolveHost req = some (host, r))
    (hne : host ≠ "")
    (hv : IS_VALID_EMAIL req.target = false)
    (hfind : getWithHashid st.forms req.target = some f0)
    (hdis : f0.disabled = false)
    (hfh : f0.host = some fh) :
    (specTrustPass f0.sitewide fh host = false →
      send req st = ⟨.hostMismatch req.wants_json host fh,
        { st with
            forms := updateForm st.forms (assign_ajax f0 req.wants_json) },
        0, 0, 0, false, none⟩) ∧
    (specTrustPass f0.sitewide fh host = true →
      send req st = admission req
        { st with
            forms := updateForm st.forms (assign_ajax f0 req.wants_json) }
        (assign_ajax f0 req.wants_json) (sortedKeys req)) ∧
    (Resp.hostMismatch req.wants_json host fh).statusCode = 403 ∧
    specTrustPass true "example.com" "www.example.com" = true ∧
    specTrustPass true "example.com" "blog.example.com" = false ∧
    specTrustPass true "example.com" "evilexample.com" = false := by
  have hcond : ∀ b : Bool,
      ((!b && (rstripSlash fh != rstripSlash host))
        || (b && !(startsWithS (remove_www host) (remove_www fh))))
        = !(specTrustPass b fh host) := by
    intro b; cases b <;> simp [specTrustPass, bne]
  refine ⟨?_, ?_, rfl, by decide, by decide, by decide⟩
  · intro hp
    simp [send, hget, hres, hne, hv, hfind, assign_ajax_disabled, hdis,
          assign_ajax_host, hfh, assign_ajax_sitewide, hcond, hp, sortedKeys]
  · intro hp
    simp [send, hget, hres, hne, hv, hfind, assign_ajax_disabled, hdis,
          assign_ajax_host, hfh, assign_ajax_sitewide, hcond, hp, sortedKeys]

end Formspree

namespace Formspree

/-- A freshly created form row is not disabled. -/
theorem newForm_disabled (id : Nat) (email host : String) :
    (newForm id email host).disabled = false := rfl

/-- C5: amended — a syntactically valid email target is lower-cased and the
form is looked up by the hash of (email, resolved host); when absent,
creation is refused with a 400 for a JSON caller, and refused with a 400
whenever the service's own public domain occurs as a substring of the
resolved host (not only when the host equals the service domain); otherwise
a new unconfirmed Form bound to (email, host) is appended to the store. -/
theorem send_email_creation (req : SendRequest) (st : ServerState)
    (host : String) (r : Option String)
    (hget : req.is_get = false)
    (hres : resolveHost req = some (host, r))
    (hne : host ≠ "")
    (hv : IS_VALID_EMAIL req.target = true)
    (hnf : getByHash st.forms (HASH (lowerS req.target) host) = none)
    (hfresh : ∀ g ∈ st.forms, g.id ≠ st.next_id) :
    (req.wants_json = true →
      send req st = ⟨.ajaxCreateRefused, st, 0, 0, 0, false, none⟩ ∧
      Resp.ajaxCreateRefused.statusCode = 400) ∧
    (req.wants_json = false → strContainsSub host SERVICE_DOMAIN = true →
      send req st = ⟨.spoofRefused, st, 0, 0, 0, false, none⟩ ∧
      Resp.spoofRefused.statusCode = 400) ∧
    (req.wants_json = false → strContainsSub host SERVICE_DOMAIN = false →
      (send req st).state.forms
        = st.forms ++
            [pendingForm
              (assign_ajax (newForm st.next_id (lowerS req.target) host) false)
              req.body] ∧
      (send req st).confirmation_emails = 1 ∧
      (send req st).resp = .confirmationSentResp false false ∧
      (pendingForm
          (assign_ajax (newForm st.next_id (lowerS req.target) host) false)
          req.body).email = lowerS req.target ∧
      (pendingForm
          (assign_ajax (newForm st.next_id (lowerS req.target) host) false)
          req.body).host = some host ∧
      (pendingForm
          (assign_ajax (newForm st.next_id (lowerS req.target) host) false)
          req.body).hash = HASH (lowerS req.target) host ∧
      (pendingForm
          (assign_ajax (newForm st.next_id (lowerS req.target) host) false)
          req.body).confirmed = false) := by
  refine ⟨?_, ?_, ?_⟩
  · intro hj
    refine ⟨?_, rfl⟩
    simp [send, hget, hres, hne, hv, hnf, hj]
  · intro hj hsp
    refine ⟨?_, rfl⟩
    simp [send, hget, hres, hne, hv, hnf, hj, hsp]
  · intro hj hsp
    have hsend : send req st = admission req
        ⟨st.forms ++
          [assign_ajax (newForm st.next_id (lowerS req.target) host) false],
         st.next_id + 1⟩
        (assign_ajax (newForm st.next_id (lowerS req.target) host) false)
        (sortedKeys req) := by
      simp [send, hget, hres, hne, hv, hnf, hj, hsp, sortedKeys,
            assign_ajax_disabled, newForm_disabled]
    have hconf : (assign_ajax (newForm st.next_id (lowerS req.target) host)
        false).confirmed = false := by
      rw [assign_ajax_confirmed]; rfl
    have hcs : (assign_ajax (newForm st.next_id (lowerS req.target) host)
        false).confirm_sent = false := by
      rw [assign_ajax_confirm_sent]; rfl
    have hadm := admission_eq_confirmation_sent req
        ⟨st.forms ++
          [assign_ajax (newForm st.next_id (lowerS req.target) host) false],
         st.next_id + 1⟩
        (assign_ajax (newForm st.next_id (lowerS req.target) host) false)
        (sortedKeys req) hconf hcs
    have hupd : updateForm
        (st.forms ++
          [assign_ajax (newForm st.next_id (lowerS req.target) host) false])
        (pendingForm
          (assign_ajax (newForm st.next_id (lowerS req.target) host) false)
          req.body)
        = st.forms ++
            [pendingForm
              (assign_ajax (newForm st.next_id (lowerS req.target) host) false)
              req.body] := by
      refine updateForm_append _ _ _ rfl ?_
      intro g hg
      have hid : (pendingForm
          (assign_ajax (newForm st.next_id (lowerS req.target) host) false)
          req.body).id = st.next_id := by
        show (assign_ajax (newForm st.next_id (lowerS req.target) host)
          false).id = st.next_id
        rw [assign_ajax_id]; rfl
      rw [hid]
      exact hfresh g hg
    refine ⟨?_, ?_, ?_, rfl, rfl, rfl, rfl⟩
    · rw [hsend, hadm]
      exact hupd
    · rw [hsend, hadm]
    · rw [hsend, hadm, hj]

end Formspree

namespace Formspree

/-! ## Concrete requests and stores for the closed checks -/

/-- A confirmed sitewide dashboard-identified form with stored host
example.com. -/
def siteForm : Form :=
  { id := 1, hashid := "abc123", hash := "", email := "owner@example.com",
    host := some "example.com", sitewide := true, confirmed := true,
    confirm_sent := false, disabled := false, uses_ajax := some false,
    captcha_disabled := false, has_dashboard := false, disable_email := false,
    plan_archives := false, counter := 0, monthly_limit := 1000,
    pending_payload := none }

/-- A store holding only the sitewide dashboard form. -/
def stSite : ServerState := { forms := [siteForm], next_id := 2 }

/-- A document-channel submission to the dashboard form resolved from the
blog subdomain. -/
def reqBlog : SendRequest :=
  { target := "abc123", is_get := false, wants_json := false,
    body := [("name", "Jo")], referrer := some "http://blog.example.com/post",
    nonce := .absent, captcha_ok := false, testing := false }

/-- The same submission resolved from the www host. -/
def reqWww : SendRequest :=
  { reqBlog with referrer := some "http://www.example.com/post" }

/-- C1 counterexample: a sitewide form confirmed for example.com answers a
submission resolved from blog.example.com with the 403 host-mismatch
response, where the claim expects acceptance. -/
theorem send_trust_rule_counterexample :
    (send reqBlog stSite).resp
      = .hostMismatch false "blog.example.com" "example.com" ∧
    (send reqBlog stSite).resp.statusCode = 403 := ⟨rfl, rfl⟩

/-- Closed check for C1: the amended Trust Rule applied at the www host —
the submission passes the guard and proceeds to the admission stage. -/
theorem send_trust_rule_witness :
    specTrustPass siteForm.sitewide "example.com" "www.example.com" = true ∧
    send reqWww stSite = admission reqWww
      { stSite with
          forms := updateForm stSite.forms (assign_ajax siteForm false) }
      (assign_ajax siteForm false) (sortedKeys reqWww) := by
  have h := send_trust_rule reqWww stSite "www.example.com"
    (some "http://www.example.com/post") siteForm "example.com"
    rfl rfl (by decide) rfl rfl rfl rfl
  exact ⟨by decide, h.2.1 (by decide)⟩

/-- C4 counterexample: the challenge for the www submission mints a nonce
binding the form's stored host example.com, not the resolved host
www.example.com as the claim states. -/
theorem admission_captcha_counterexample :
    (send reqWww stSite).minted_nonce
      = some ("example.com", some "http://www.example.com/post") ∧
    referrer_to_path reqWww.referrer = "www.example.com" ∧
    ("example.com" : String) ≠ "www.example.com" := ⟨rfl, rfl, by decide⟩

/-- Closed check for C4: the captcha-requirement theorem applied to the
confirmed sitewide form at the www request renders the challenge carrying
the payload, the nonce and the post-back action. -/
theorem admission_captcha_witness :
    siteForm.confirmed = true ∧
    admission reqWww stSite siteForm ["name"] =
      ⟨.captchaChallenge ([("name", "Jo")] ++ [("_host_nonce", "nonce")])
          ["name"] (API_ROOT ++ "abc123") "example.com"
          (some "http://www.example.com/post"),
       stSite, 0, 0, 0, true,
       some ("example.com", some "http://www.example.com/post")⟩ := by
  have h := admission_captcha reqWww stSite siteForm ["name"] rfl
  exact ⟨rfl, h.1 (by decide)⟩

/-- An over-quota confirmed dashboard form. -/
def overForm : Form := { siteForm with hashid := "ovr42", counter := 1000 }

/-- A store holding only the over-quota form. -/
def stOver : ServerState := { forms := [overForm], next_id := 2 }

/-- A JSON-channel submission to the over-quota form. -/
def reqOver : SendRequest :=
  { target := "ovr42", is_get := false, wants_json := true,
    body := [("name", "Jo")], referrer := some "http://example.com/post",
    nonce := .absent, captcha_ok := false, testing := false }

/-- C7 counterexample: an over-quota JSON submission is answered with a 200
response, not the 402 the claim states for JSON and document callers
alike. -/
theorem admission_overlimit_counterexample :
    (send reqOver stOver).resp = .overlimitResp true ∧
    (send reqOver stOver).resp.statusCode = 200 ∧
    (send reqOver stOver).notification_emails = 0 ∧
    (200 : Nat) ≠ 402 := ⟨rfl, rfl, rfl, by decide⟩

/-- Closed check for C7: the over-quota theorem applied to the concrete
over-quota JSON submission. -/
theorem admission_overlimit_witness :
    (Form.sendSubmission overForm reqOver.body ["name"]).status
      = .OVERLIMIT ∧
    (admission reqOver stOver overForm ["name"]).resp = .overlimitResp true ∧
    (admission reqOver stOver overForm ["name"]).notification_emails = 0 := by
  have h := admission_overlimit reqOver stOver overForm ["name"] rfl
    (by decide) (by decide)
  exact ⟨by decide, h.2.2.2.1, h.1⟩

/-- A JSON-channel submission to the sitewide form carrying an invalid
reply-to value. -/
def reqReply : SendRequest :=
  { target := "abc123", is_get := false, wants_json := true,
    body := [("name", "Jo"), ("_replyto", "not-an-address")],
    referrer := some "http://example.com/post",
    nonce := .absent, captcha_ok := false, testing := false }

/-- C8 counterexample: an invalid reply-to on the JSON channel is answered
with a 500 response, not the 4xx client error the claim states for both
caller kinds. -/
theorem admission_replyto_counterexample :
    (send reqReply stSite).resp = .replytoErrorResp true "not-an-address" ∧
    (send reqReply stSite).resp.statusCode = 500 ∧
    ¬(400 ≤ (send reqReply stSite).resp.statusCode ∧
      (send reqReply stSite).resp.statusCode < 500) := ⟨rfl, rfl, by decide⟩

/-- Closed check for C8: the reply-to-error theorem applied to the concrete
invalid-reply-to JSON submission. -/
theorem admission_replyto_error_witness :
    (Form.sendSubmission siteForm reqReply.body ["name"]).status
      = .REPLYTO_ERROR "not-an-address" ∧
    (admission reqReply stSite siteForm ["name"]).resp
      = .replytoErrorResp true "not-an-address" ∧
    (admission reqReply stSite siteForm ["name"]).notification_emails = 0 := by
  have h := admission_replyto_error reqReply stSite siteForm ["name"]
    "not-an-address" rfl (by decide) (by decide)
  exact ⟨by decide, h.2.2.2.1, h.1⟩

/-- An unconfirmed email-identified form for owner@example.com at
example.com. -/
def newEmailForm : Form := newForm 5 "owner@example.com" "example.com"

/-- A store holding only the unconfirmed email form. -/
def stEmail : ServerState := { forms := [newEmailForm], next_id := 6 }

/-- A document-channel submission to the unconfirmed email form. -/
def reqJo : SendRequest :=
  { target := "owner@example.com", is_get := false, wants_json := false,
    body := [("name", "Jo")], referrer := some "https://example.com/contact",
    nonce := .absent, captcha_ok := false, testing := false }

/-- Closed check for C2: the unconfirmed-admission theorem applied at the
concrete first submission, and the duplicated outcome of the second. -/
theorem admission_unconfirmed_witness :
    newEmailForm.confirmed = false ∧ newEmailForm.confirm_sent = false ∧
    (admission reqJo stEmail newEmailForm ["name"]).resp
      = .confirmationSentResp false false ∧
    (admission reqJo stEmail newEmailForm ["name"]).confirmation_emails
      = 1 ∧
    (admission reqJo stEmail (pendingForm newEmailForm reqJo.body)
        ["name"]).resp = .confirmationSentResp false true := by
  have h := admission_unconfirmed reqJo stEmail newEmailForm ["name"] rfl rfl
  exact ⟨rfl, rfl, h.2.2.2.1, h.2.2.1, (h.2.2.2.2.2.2 stEmail).1⟩

/-- A disabled dashboard form. -/
def offForm : Form := { siteForm with hashid := "off99", disabled := true }

/-- A store holding only the disabled form. -/
def stOff : ServerState := { forms := [offForm], next_id := 2 }

/-- A submission to the disabled form. -/
def reqOff : SendRequest := { reqBlog with target := "off99" }

/-- Closed check for C3: the disabled-form theorem applied to a concrete
disabled dashboard form. -/
theorem send_disabled_rejected_witness :
    offForm.disabled = true ∧
    (send reqOff stOff).resp = .formNotActive false ∧
    (send reqOff stOff).resp.statusCode = 403 := by
  have h := send_disabled_rejected reqOff stOff "blog.example.com"
    (some "http://blog.example.com/post") offForm rfl rfl (by decide)
    (Or.inl ⟨rfl, rfl⟩) rfl
  exact ⟨rfl, h.1, h.2.1⟩

/-- An empty store with fresh id 7. -/
def stEmpty : ServerState := { forms := [], next_id := 7 }

/-- A document-channel submission from a host that embeds the service domain
without being it. -/
def reqSpoof : SendRequest :=
  { target := "A@B.com", is_get := false, wants_json := false,
    body := [("name", "Jo")],
    referrer := some "http://formspree.io.evil.com/x",
    nonce := .absent, captcha_ok := false, testing := false }

/-- C5 counterexample: the host formspree.io.evil.com does not match the
service's own public domain, yet creation is refused with 400 and no form is
constructed, where the claim expects a new unconfirmed Form. -/
theorem send_email_creation_counterexample :
    (send reqSpoof stEmpty).resp = .spoofRefused ∧
    (send reqSpoof stEmpty).resp.statusCode = 400 ∧
    (send reqSpoof stEmpty).state.forms = [] ∧
    referrer_to_path reqSpoof.referrer = "formspree.io.evil.com" ∧
    ("formspree.io.evil.com" : String) ≠ SERVICE_DOMAIN :=
  ⟨rfl, rfl, rfl, rfl, by decide⟩

/-- A document-channel submission to a brand-new lower-cased email target
from an ordinary host. -/
def reqNew : SendRequest :=
  { reqSpoof with referrer := some "http://example.com/x" }

/-- Closed check for C5: the creation theorem applied at the concrete fresh
(email, host) pair — one new unconfirmed lower-cased form is appended. -/
theorem send_email_creation_witness :
    IS_VALID_EMAIL reqNew.target = true ∧
    (send reqNew stEmpty).state.forms
      = [pendingForm (assign_ajax (newForm 7 "a@b.com" "example.com") false)
          reqNew.body] ∧
    (send reqNew stEmpty).confirmation_emails = 1 := by
  have h := send_email_creation reqNew stEmpty "example.com"
    (some "http://example.com/x") rfl rfl (by decide) rfl rfl
    (by intro g hg; exact absurd hg (List.not_mem_nil g))
  have h3 := h.2.2 rfl (by decide)
  exact ⟨rfl, h3.1, h3.2.1⟩

end Formspree
